import Mathlib

/-! Spotify search wrapper: a shallow embedding of `main.go`.

The program reads two credentials from the environment, obtains a bearer token
with the OAuth2 client-credentials grant, runs a track search and an artist
search, and prints both result lists.

Modelling conventions.

* The outside world (environment variables, the dotenv file, the token endpoint
  and the search endpoint) is a record of functions, `World`.
* Every observable effect is appended to a trace of `Event`s that each
  operation receives and returns (explicit state passing).
* A Go `(value, error)` result is a pair whose second component is
  `Option GoError`; `none` is the `nil` error.
* A Go slice that the code may return as `nil` is `Option (List α)`, with
  `none` the `nil` slice.
* Go `int` and `time.Duration` are 64-bit two's-complement integers; they are
  `Int` here and the one multiplication that can leave the range wraps
  explicitly (`wrapInt64`).
* The `float64` results of `Duration.Minutes` and `Duration.Seconds` are
  computed as in IEEE 754 binary64: exact result, rounded to the nearest value
  with a 53-bit significand, ties to even (`roundFloat64`).
-/

namespace SpotifySearch

/-! ## Data model (the fields of the client library's types that `main.go` reads) -/

/-- Go `error` value, identified by the text its `Error()` method returns. -/
structure GoError where
  msg : String
  deriving DecidableEq, Repr

/-- Go slice of `α` that may be `nil`: `none` is the `nil` slice. -/
abbrev Slice (α : Type) : Type := Option (List α)

/-- Elements visited by `for ... range` over a slice; a `nil` slice has none. -/
def Slice.elems {α : Type} : Slice α → List α
  | none => []
  | some xs => xs

/-- Fields of `spotify.SimpleArtist` read by `joinArtists`. -/
structure SimpleArtist where
  Name : String
  ID : String
  deriving DecidableEq, Repr

/-- Fields of `spotify.SimpleAlbum` read by `PrintTracks`. -/
structure SimpleAlbum where
  Name : String
  deriving DecidableEq, Repr

/-- Fields of `spotify.FullTrack` read by `PrintTracks`.  `Duration` is the raw
`duration_ms` value, a Go `int` counting milliseconds. -/
structure FullTrack where
  Name : String
  Artists : List SimpleArtist
  Album : SimpleAlbum
  Duration : Int
  ID : String
  Popularity : Int
  deriving DecidableEq, Repr

/-- Fields of `spotify.FullArtist` read by `PrintArtists`. -/
structure FullArtist where
  Name : String
  Genres : List String
  Popularity : Int
  ID : String
  deriving DecidableEq, Repr

/-- The `spotify.FullTrackPage` of a search result: its `Tracks` slice. -/
structure FullTrackPage where
  Tracks : Slice FullTrack
  deriving DecidableEq, Repr

/-- The `spotify.FullArtistPage` of a search result: its `Artists` slice. -/
structure FullArtistPage where
  Artists : Slice FullArtist
  deriving DecidableEq, Repr

/-- The `spotify.SearchResult` categories the program looks at; each is a
pointer in Go, `none` being `nil`. -/
structure SearchResult where
  Tracks : Option FullTrackPage
  Artists : Option FullArtistPage
  deriving DecidableEq, Repr

/-- Search category requested (`spotify.SearchTypeTrack`, `spotify.SearchTypeArtist`). -/
inductive SearchType where
  | SearchTypeTrack
  | SearchTypeArtist
  deriving DecidableEq, Repr

/-- The `oauth2.Token` obtained by the exchange; the program never looks inside it. -/
structure Token where
  AccessToken : String
  deriving DecidableEq, Repr

/-- The `clientcredentials.Config` built by `NewSpotifyService`. -/
structure Config where
  ClientID : String
  ClientSecret : String
  TokenURL : String
  deriving DecidableEq, Repr

/-- The `spotify.Client`: an HTTP client that attaches the token. -/
structure Client where
  token : Token
  deriving DecidableEq, Repr

/-- The `SpotifyService` struct of `main.go`. -/
structure SpotifyService where
  client : Client
  deriving DecidableEq, Repr

/-! ## Effects -/

/-- Observable effects of the program, in the order they happen. -/
inductive Event where
  /-- The HTTP request of `config.Token`: the client-credentials exchange. -/
  | tokenRequest (cfg : Config)
  /-- The HTTP request of `client.Search`. -/
  | searchRequest (query : String) (t : SearchType) (limit : Int)
  /-- One `fmt.Println` or `fmt.Printf` call: the text written to standard output. -/
  | stdout (text : String)
  /-- One `log.Printf`, `log.Fatal` or `log.Fatalf` call: the message logged. -/
  | logged (msg : String)
  deriving DecidableEq, Repr

/-- Trace of effects so far. -/
abbrev Trace : Type := List Event

/-- Whether an event writes to standard output. -/
def Event.isStdout : Event → Bool
  | .stdout _ => true
  | _ => false

/-- The world outside the process. -/
structure World where
  /-- Process environment: `none` for a variable that is not set. -/
  env : String → Option String
  /-- Effect of `godotenv.Load` on the environment, or its error. -/
  dotenvLoad : String → (String → Option String) → Except GoError (String → Option String)
  /-- Answer of the token endpoint to `config.Token`. -/
  tokenExchange : Config → Except GoError Token
  /-- Answer of the search endpoint to `client.Search` (a timeout of the
  10-second context is one of the errors). -/
  search : Client → String → SearchType → Int → Except GoError SearchResult

/-- Go `os.Getenv`: the value of the variable, or the empty string when unset. -/
def Getenv (env : String → Option String) (key : String) : String :=
  match env key with
  | some v => v
  | none => ""

/-- Constant `spotifyauth.TokenURL` of the client library. -/
def TokenURL : String := "https://accounts.spotify.com/api/token"

/-! ## The service -/

/-- Go `NewSpotifyService`, reading the environment `env`. -/
def NewSpotifyService (w : World) (env : String → Option String) (tr : Trace) :
    (Option SpotifyService × Option GoError) × Trace :=
  let clientID := Getenv env "SPOTIFY_CLIENT_ID"
  let clientSecret := Getenv env "SPOTIFY_CLIENT_SECRET"
  if clientID = "" ∨ clientSecret = "" then
    ((none, some ⟨"SPOTIFY_CLIENT_ID and SPOTIFY_CLIENT_SECRET must be set"⟩), tr)
  else
    let config : Config :=
      { ClientID := clientID, ClientSecret := clientSecret, TokenURL := TokenURL }
    let tr := tr ++ [Event.tokenRequest config]
    match w.tokenExchange config with
    | .error err => ((none, some ⟨"couldn't get token: " ++ err.msg⟩), tr)
    | .ok token =>
      let client : Client := { token := token }
      ((some { client := client }, none), tr)

/-- Go `(*SpotifyService).SearchTracks`. -/
def SpotifyService.SearchTracks (w : World) (s : SpotifyService) (query : String)
    (limit : Int) (tr : Trace) : (Slice FullTrack × Option GoError) × Trace :=
  let tr := tr ++ [Event.searchRequest query SearchType.SearchTypeTrack limit]
  match w.search s.client query SearchType.SearchTypeTrack limit with
  | .error err => ((none, some ⟨"search failed: " ++ err.msg⟩), tr)
  | .ok result =>
    match result.Tracks with
    | none => ((none, some ⟨"no tracks found"⟩), tr)
    | some page => ((page.Tracks, none), tr)

/-- Go `(*SpotifyService).SearchArtists`. -/
def SpotifyService.SearchArtists (w : World) (s : SpotifyService) (query : String)
    (limit : Int) (tr : Trace) : (Slice FullArtist × Option GoError) × Trace :=
  let tr := tr ++ [Event.searchRequest query SearchType.SearchTypeArtist limit]
  match w.search s.client query SearchType.SearchTypeArtist limit with
  | .error err => ((none, some ⟨"search failed: " ++ err.msg⟩), tr)
  | .ok result =>
    match result.Artists with
    | none => ((none, some ⟨"no artists found"⟩), tr)
    | some page => ((page.Artists, none), tr)

/-! ## Formatting -/

/-- Go `strings.Join`: empty for no elements, the element itself for one,
otherwise the first element followed by separator and element for each of the
rest, written left to right into a builder. -/
def stringsJoin (elems : List String) (sep : String) : String :=
  match elems with
  | [] => ""
  | [e] => e
  | e :: rest => rest.foldl (fun b s => b ++ sep ++ s) e

/-- Verb `%d` of `fmt.Printf` on an integer: the decimal digits, after a
minus sign when negative. -/
def fmtD (n : Int) : String :=
  if n < 0 then "-" ++ Nat.repr n.natAbs else Nat.repr n.natAbs

/-- Verb `%02d` of `fmt.Printf` on an integer: the decimal digits padded with
leading zeros to width 2, the minus sign of a negative number counting as one
of the two columns. -/
def fmt02D (n : Int) : String :=
  let digits := Nat.repr n.natAbs
  if n < 0 then
    "-" ++ String.mk (List.replicate (1 - digits.length) '0') ++ digits
  else
    String.mk (List.replicate (2 - digits.length) '0') ++ digits

/-- Reduction of an integer to the 64-bit two's-complement range, the result of
Go integer arithmetic on `int64`. -/
def wrapInt64 (x : Int) : Int :=
  (x + 2 ^ 63) % 2 ^ 64 - 2 ^ 63

/-- Constant `time.Millisecond`, in nanoseconds. -/
def Millisecond : Int := 1000000

/-- Constant `time.Second`, in nanoseconds. -/
def Second : Int := 1000000000

/-- Constant `time.Minute`, in nanoseconds. -/
def Minute : Int := 60000000000

/-- Library method `TimeDuration` of a track:
`time.Duration(t.Duration) * time.Millisecond`, an `int64` product counting
nanoseconds. -/
def FullTrack.TimeDuration (t : FullTrack) : Int :=
  wrapInt64 (t.Duration * Millisecond)

/-! ### Binary64 arithmetic

`Minutes` and `Seconds` of `time.Duration` compute in `float64`.  The values that
occur are zero or lie between `2 ^ (-36)` and `2 ^ 63` in size, well inside the
normal range of the format, so a value is a significand times a power of two
and every operation is the exact result rounded to 53 significant bits, ties
going to the even significand (the IEEE 754 default that Go uses).  Infinities,
NaN and subnormal numbers do not occur and are not represented. -/

/-- A finite `float64` value, `mant * 2 ^ exp`. -/
structure Float64 where
  mant : Int
  exp : Int
  deriving DecidableEq, Repr

/-- Numerator of the value written as a fraction over `Float64.den`. -/
def Float64.num (x : Float64) : Int := x.mant * 2 ^ x.exp.toNat

/-- Denominator of the value written as a fraction: a power of two. -/
def Float64.den (x : Float64) : Nat := 2 ^ (-x.exp).toNat

/-- The rational number a `float64` value stands for. -/
def Float64.toRat (x : Float64) : ℚ := (x.num : ℚ) / (x.den : ℚ)

/-- Integer part of the binary logarithm, by halving `n` at most `fuel` times. -/
def log2Fuel : Nat → Nat → Nat
  | 0, _ => 0
  | fuel + 1, n => if 2 ≤ n then log2Fuel fuel (n / 2) + 1 else 0

/-- Integer part of the binary logarithm of a positive number. -/
def floorLog2 (n : Nat) : Nat := log2Fuel n n

/-- Binary exponent `e` of the positive fraction `n / den`:
`2 ^ e ≤ n / den < 2 ^ (e + 1)`.  The difference of the two logarithms is
either `e` or `e + 1`; one comparison decides. -/
def float64Exponent (n den : Nat) : Int :=
  let e0 : Int := (floorLog2 n : Int) - (floorLog2 den : Int)
  if n * 2 ^ (-e0).toNat < den * 2 ^ e0.toNat then e0 - 1 else e0

/-- Nearest integer to `N / D`, a tie going to the even one. -/
def roundHalfEven (N D : Nat) : Nat :=
  let q := N / D
  let r := N % D
  if 2 * r < D then q else if D < 2 * r then q + 1 else if q % 2 = 0 then q else q + 1

/-- The `float64` nearest to the fraction `num / den` (`den` positive): with
`e` the binary exponent of the fraction, the significand is `num / den` scaled
by `2 ^ (52 - e)` and rounded to an integer, ties to even, and the result is
that significand times `2 ^ (e - 52)`. -/
def roundFloat64 (num : Int) (den : Nat) : Float64 :=
  if num = 0 then ⟨0, 0⟩ else
    let s : Int := 52 - float64Exponent num.natAbs den
    let m := roundHalfEven (num.natAbs * 2 ^ s.toNat) (den * 2 ^ (-s).toNat)
    ⟨if num < 0 then -(m : Int) else (m : Int), -s⟩

/-- Go conversion `float64(n)` of an integer. -/
def Float64.ofInt (n : Int) : Float64 := roundFloat64 n 1

/-- Go `x + y` on `float64`: the exact sum, rounded. -/
def Float64.add (x y : Float64) : Float64 :=
  roundFloat64 (x.num * (y.den : Int) + y.num * (x.den : Int)) (x.den * y.den)

/-- Go `x / y` on `float64` for `y` not zero: the exact quotient, rounded (the
program divides by the constants `60 * 1e9` and `1e9` only). -/
def Float64.div (x y : Float64) : Float64 :=
  roundFloat64 (Int.sign y.num * x.num * (y.den : Int)) (x.den * y.num.natAbs)

/-- Go conversion `int(x)` of a `float64`: the fraction is discarded, towards
zero. -/
def Float64.toInt (x : Float64) : Int := Int.tdiv x.num x.den

/-- Go `time.Duration.Minutes` for a duration of `d` nanoseconds:
`min := d / Minute; nsec := d % Minute;
return float64(min) + float64(nsec)/(60*1e9)`. -/
def Minutes (d : Int) : Float64 :=
  let min := Int.tdiv d Minute
  let nsec := Int.tmod d Minute
  (Float64.ofInt min).add ((Float64.ofInt nsec).div (Float64.ofInt (60 * 1000000000)))

/-- Go `time.Duration.Seconds` for a duration of `d` nanoseconds:
`sec := d / Second; nsec := d % Second;
return float64(sec) + float64(nsec)/1e9`. -/
def Seconds (d : Int) : Float64 :=
  let sec := Int.tdiv d Second
  let nsec := Int.tmod d Second
  (Float64.ofInt sec).add ((Float64.ofInt nsec).div (Float64.ofInt 1000000000))

/-- Go `joinArtists`: the names are copied into a fresh slice in order, then
joined with comma and space. -/
def joinArtists (artists : List SimpleArtist) : String :=
  let names := artists.foldl (fun names artist => names ++ [artist.Name]) []
  stringsJoin names ", "

/-- Body of the `for i, track := range tracks` loop of `PrintTracks`, from
index `i` on. -/
def printTracksLoop : Nat → List FullTrack → Trace → Trace
  | _, [], tr => tr
  | i, track :: rest, tr =>
    let duration := track.TimeDuration
    let tr := tr ++ [Event.stdout
      (fmtD (i + 1) ++ ". " ++ track.Name ++ " - " ++ joinArtists track.Artists ++ "\n")]
    let tr := tr ++ [Event.stdout ("   Альбом: " ++ track.Album.Name ++ "\n")]
    let tr := tr ++ [Event.stdout
      ("   Длительность: " ++ fmtD (Minutes duration).toInt ++ ":"
        ++ fmt02D (Int.tmod (Seconds duration).toInt 60) ++ "\n")]
    let tr := tr ++ [Event.stdout ("   ID: " ++ track.ID ++ "\n")]
    let tr := tr ++ [Event.stdout ("   Популярность: " ++ fmtD track.Popularity ++ "/100\n")]
    let tr := tr ++ [Event.stdout "----------------------------------------\n"]
    printTracksLoop (i + 1) rest tr

/-- Go `PrintTracks`. -/
def PrintTracks (tracks : Slice FullTrack) (tr : Trace) : Trace :=
  let tr := tr ++ [Event.stdout "\nНайденные треки:\n"]
  let tr := tr ++ [Event.stdout "========================================\n"]
  printTracksLoop 0 tracks.elems tr

/-- Body of the `for i, artist := range artists` loop of `PrintArtists`, from
index `i` on. -/
def printArtistsLoop : Nat → List FullArtist → Trace → Trace
  | _, [], tr => tr
  | i, artist :: rest, tr =>
    let tr := tr ++ [Event.stdout (fmtD (i + 1) ++ ". " ++ artist.Name ++ "\n")]
    let tr := tr ++ [Event.stdout ("   Жанры: " ++ stringsJoin artist.Genres ", " ++ "\n")]
    let tr := tr ++ [Event.stdout ("   Популярность: " ++ fmtD artist.Popularity ++ "/100\n")]
    let tr := tr ++ [Event.stdout ("   ID: " ++ artist.ID ++ "\n")]
    let tr := tr ++ [Event.stdout "----------------------------------------\n"]
    printArtistsLoop (i + 1) rest tr

/-- Go `PrintArtists`. -/
def PrintArtists (artists : Slice FullArtist) (tr : Trace) : Trace :=
  let tr := tr ++ [Event.stdout "\nНайденные артисты:\n"]
  let tr := tr ++ [Event.stdout "========================================\n"]
  printArtistsLoop 0 artists.elems tr

/-! ## Entry point -/

/-- How the process ends: `returned` when `main` runs to its end (exit status
0), `fatal` when `log.Fatal` or `log.Fatalf` ends it (exit status 1),
`panicked` on a nil-pointer dereference. -/
inductive Exit where
  | returned
  | fatal
  | panicked
  deriving DecidableEq, Repr

/-- Go `main`: the trace of the whole run and the way the process ends. -/
def main (w : World) : Trace × Exit :=
  let tr : Trace := []
  match w.dotenvLoad "dev.env" w.env with
  | .error _ => (tr ++ [Event.logged "Error loading .env file"], Exit.fatal)
  | .ok env =>
    match NewSpotifyService w env tr with
    | ((_, some err), tr) =>
      (tr ++ [Event.logged ("Ошибка создания сервиса: " ++ err.msg)], Exit.fatal)
    | ((none, none), tr) =>
      -- `service.SearchTracks` reads `s.client` through a nil pointer
      (tr, Exit.panicked)
    | ((some service, none), tr) =>
      let (r, tr) := service.SearchTracks w "надо было ставить линукс" 1 tr
      let tr :=
        match r with
        | (_, some err) => tr ++ [Event.logged ("Ошибка поиска треков: " ++ err.msg)]
        | (tracks, none) => PrintTracks tracks tr
      let (r, tr) := service.SearchArtists w "cupsize" 3 tr
      let tr :=
        match r with
        | (_, some err) => tr ++ [Event.logged ("Ошибка поиска артистов: " ++ err.msg)]
        | (artists, none) => PrintArtists artists tr
      (tr, Exit.returned)

end SpotifySearch


namespace SpotifySearch

/-! ## Sample worlds used to instantiate the theorems -/

/-- A credential variable is missing: not set, or set to the empty string. -/
def missing (env : String → Option String) (key : String) : Prop :=
  env key = none ∨ env key = some ""

/-- An environment holding both credentials. -/
def sampleEnv : String → Option String := fun key =>
  if key = "SPOTIFY_CLIENT_ID" then some "id"
  else if key = "SPOTIFY_CLIENT_SECRET" then some "secret"
  else none

/-- An environment holding the client identifier only. -/
def sampleEnvNoSecret : String → Option String := fun key =>
  if key = "SPOTIFY_CLIENT_ID" then some "id" else none

/-- One track, the one of the end-to-end scenario. -/
def songA : FullTrack :=
  { Name := "Song A", Artists := [{ Name := "Artist A", ID := "a1" }],
    Album := { Name := "Album A" }, Duration := 185000, ID := "t1", Popularity := 42 }

/-- One artist with two genres. -/
def artistX : FullArtist :=
  { Name := "X", Genres := ["pop", "rock"], Popularity := 7, ID := "x1" }

/-- One artist with no genre. -/
def artistY : FullArtist :=
  { Name := "Y", Genres := [], Popularity := 3, ID := "y1" }

/-- A world where the exchange succeeds, the track search times out and the
artist search answers with two artists. -/
def sampleWorld : World :=
  { env := fun _ => none
    dotenvLoad := fun _ _ => .ok sampleEnv
    tokenExchange := fun _ => .ok { AccessToken := "tok" }
    search := fun _ _ t _ =>
      match t with
      | .SearchTypeTrack => .error { msg := "context deadline exceeded" }
      | .SearchTypeArtist =>
        .ok { Tracks := none, Artists := some { Artists := some [artistX, artistY] } } }

/-- A world where the token endpoint rejects the credentials and every search
is answered with one track and no artist category. -/
def sampleWorldRejecting : World :=
  { env := sampleEnv
    dotenvLoad := fun _ e => .ok e
    tokenExchange := fun _ => .error { msg := "oauth2: cannot fetch token: 401 Unauthorized" }
    search := fun _ _ _ _ =>
      .ok { Tracks := some { Tracks := some [songA] }, Artists := none } }

/-- A world where every search is answered with a result that has neither a
track category nor an artist category. -/
def sampleWorldNoCategory : World :=
  { env := sampleEnv
    dotenvLoad := fun _ e => .ok e
    tokenExchange := fun _ => .ok { AccessToken := "tok" }
    search := fun _ _ _ _ => .ok { Tracks := none, Artists := none } }

/-- A track whose duration in milliseconds, times a million, exceeds the
largest `int64`: 9223372036855 ms, about 292 years. -/
def longTrack : FullTrack :=
  { Name := "Long", Artists := [], Album := { Name := "L" }, Duration := 9223372036855,
    ID := "t2", Popularity := 0 }

/-- A track of ten million million milliseconds, about 317 years. -/
def hugeTrack : FullTrack :=
  { Name := "Huge", Artists := [{ Name := "H", ID := "a2" }], Album := { Name := "H" },
    Duration := 10000000000000, ID := "t3", Popularity := 1 }

/-- The track of the end-to-end scenario, lasting 125000 ms instead. -/
def songB : FullTrack := { songA with Duration := 125000 }

/-- A world where the exchange succeeds and both searches succeed: one track,
one artist. -/
def sampleWorldBoth : World :=
  { env := sampleEnv
    dotenvLoad := fun _ e => .ok e
    tokenExchange := fun _ => .ok { AccessToken := "tok" }
    search := fun _ _ _ _ =>
      .ok { Tracks := some { Tracks := some [songA] },
            Artists := some { Artists := some [artistX] } } }

/-- A service holding a client with a fixed token. -/
def sampleService : SpotifyService := { client := { token := { AccessToken := "tok" } } }

/-! ## Helper lemmas -/

theorem Getenv_of_missing (env : String → Option String) (key : String)
    (h : missing env key) : Getenv env key = "" := by
  unfold Getenv
  rcases h with h | h <;> simp [h]

theorem searchFailed_ne_noTracks (m : String) : "search failed: " ++ m ≠ "no tracks found" := by
  intro h
  have h2 := congrArg String.data h
  rw [String.data_append] at h2
  simp at h2

theorem searchFailed_ne_noArtists (m : String) : "search failed: " ++ m ≠ "no artists found" := by
  intro h
  have h2 := congrArg String.data h
  rw [String.data_append] at h2
  simp at h2

/-! ## The service: theorems -/

/-- C1: when `SPOTIFY_CLIENT_ID` or `SPOTIFY_CLIENT_SECRET` is unset or empty,
`NewSpotifyService` returns no service and the configuration error, and the
trace is the one it received: no token request, no network call. -/
theorem NewSpotifyService_missing_credential (w : World) (env : String → Option String)
    (tr : Trace)
    (h : missing env "SPOTIFY_CLIENT_ID" ∨ missing env "SPOTIFY_CLIENT_SECRET") :
    NewSpotifyService w env tr
      = ((none, some ⟨"SPOTIFY_CLIENT_ID and SPOTIFY_CLIENT_SECRET must be set"⟩), tr) := by
  unfold NewSpotifyService
  rcases h with h | h
  · simp [Getenv_of_missing env _ h]
  · simp [Getenv_of_missing env _ h]

theorem NewSpotifyService_missing_credential_witness :
    NewSpotifyService sampleWorld sampleEnvNoSecret []
      = ((none, some ⟨"SPOTIFY_CLIENT_ID and SPOTIFY_CLIENT_SECRET must be set"⟩), []) :=
  NewSpotifyService_missing_credential sampleWorld sampleEnvNoSecret []
    (Or.inr (Or.inl (by decide)))

/-- C2: when the backend search succeeds and the track category is present,
`SearchTracks` returns the category's track slice itself, unchanged (same
tracks, same order, same length, also when empty), with a nil error. -/
theorem SearchTracks_success (w : World) (s : SpotifyService) (query : String)
    (limit : Int) (tr : Trace) (result : SearchResult) (page : FullTrackPage)
    (hcall : w.search s.client query SearchType.SearchTypeTrack limit = .ok result)
    (hpage : result.Tracks = some page) :
    (s.SearchTracks w query limit tr).1 = (page.Tracks, none) := by
  unfold SpotifyService.SearchTracks
  simp [hcall, hpage]

theorem SearchTracks_success_witness :
    (sampleService.SearchTracks sampleWorldRejecting "test query" 1 []).1
      = (some [songA], none) :=
  SearchTracks_success sampleWorldRejecting sampleService "test query" 1 []
    { Tracks := some { Tracks := some [songA] }, Artists := none }
    { Tracks := some [songA] } rfl rfl

/-- C3: when the backend search succeeds but the track category is nil,
`SearchTracks` returns the nil slice and the error "no tracks found"; the
error is not nil. -/
theorem SearchTracks_no_category (w : World) (s : SpotifyService) (query : String)
    (limit : Int) (tr : Trace) (result : SearchResult)
    (hcall : w.search s.client query SearchType.SearchTypeTrack limit = .ok result)
    (hpage : result.Tracks = none) :
    (s.SearchTracks w query limit tr).1 = (none, some ⟨"no tracks found"⟩)
      ∧ (s.SearchTracks w query limit tr).1.2 ≠ none := by
  unfold SpotifyService.SearchTracks
  simp [hcall, hpage]

theorem SearchTracks_no_category_witness :
    (sampleService.SearchTracks sampleWorldNoCategory "cupsize" 3 []).1
        = (none, some ⟨"no tracks found"⟩)
      ∧ (sampleService.SearchTracks sampleWorldNoCategory "cupsize" 3 []).1.2 ≠ none :=
  SearchTracks_no_category sampleWorldNoCategory sampleService "cupsize" 3 []
    { Tracks := none, Artists := none } rfl rfl

/-- C7: when the backend search call returns an error, `SearchTracks` returns
the nil slice and the error "search failed: " followed by the cause's text;
the outcome is not the "no tracks found" error of the category check. -/
theorem SearchTracks_backend_error (w : World) (s : SpotifyService) (query : String)
    (limit : Int) (tr : Trace) (err : GoError)
    (hcall : w.search s.client query SearchType.SearchTypeTrack limit = .error err) :
    (s.SearchTracks w query limit tr).1 = (none, some ⟨"search failed: " ++ err.msg⟩)
      ∧ (s.SearchTracks w query limit tr).1.2 ≠ some ⟨"no tracks found"⟩ := by
  unfold SpotifyService.SearchTracks
  simp only [hcall]
  refine ⟨trivial, ?_⟩
  intro h
  simp only [Option.some.injEq, GoError.mk.injEq] at h
  exact searchFailed_ne_noTracks err.msg h

theorem SearchTracks_backend_error_witness :
    (sampleService.SearchTracks sampleWorld "test query" 1 []).1
        = (none, some ⟨"search failed: " ++ "context deadline exceeded"⟩)
      ∧ (sampleService.SearchTracks sampleWorld "test query" 1 []).1.2
        ≠ some ⟨"no tracks found"⟩ :=
  SearchTracks_backend_error sampleWorld sampleService "test query" 1 []
    { msg := "context deadline exceeded" } rfl

/-- C6: `SearchArtists` on the artist category: a backend error gives the nil
slice and "search failed: " followed by the cause; a nil artist category gives
the nil slice and "no artists found"; otherwise the category's artist slice is
returned unchanged with a nil error. -/
theorem SearchArtists_contract (w : World) (s : SpotifyService) (query : String)
    (limit : Int) (tr : Trace) :
    (∀ err, w.search s.client query SearchType.SearchTypeArtist limit = .error err →
        (s.SearchArtists w query limit tr).1
          = (none, some ⟨"search failed: " ++ err.msg⟩))
      ∧ (∀ result, w.search s.client query SearchType.SearchTypeArtist limit = .ok result →
          result.Artists = none →
          (s.SearchArtists w query limit tr).1 = (none, some ⟨"no artists found"⟩))
      ∧ (∀ result page,
          w.search s.client query SearchType.SearchTypeArtist limit = .ok result →
          result.Artists = some page →
          (s.SearchArtists w query limit tr).1 = (page.Artists, none)) := by
  unfold SpotifyService.SearchArtists
  refine ⟨?_, ?_, ?_⟩
  · intro err hcall
    simp [hcall]
  · intro result hcall hpage
    simp [hcall, hpage]
  · intro result page hcall hpage
    simp [hcall, hpage]

theorem SearchArtists_contract_witness :
    (sampleService.SearchArtists sampleWorld "cupsize" 3 []).1
      = (some [artistX, artistY], none) :=
  (SearchArtists_contract sampleWorld sampleService "cupsize" 3 []).2.2
    { Tracks := none, Artists := some { Artists := some [artistX, artistY] } }
    { Artists := some [artistX, artistY] } rfl rfl

/-- C10: with both credentials non-empty, a failed token exchange makes
`NewSpotifyService` return no service and the error "couldn't get token: "
followed by the exchange's error text, after the one token request; and
whenever a service is returned, the exchange succeeded and the service holds the
client built from its token. -/
theorem NewSpotifyService_token_failure (w : World) (env : String → Option String)
    (tr : Trace) :
    (Getenv env "SPOTIFY_CLIENT_ID" ≠ "" → Getenv env "SPOTIFY_CLIENT_SECRET" ≠ "" →
      ∀ err,
        w.tokenExchange
            { ClientID := Getenv env "SPOTIFY_CLIENT_ID",
              ClientSecret := Getenv env "SPOTIFY_CLIENT_SECRET",
              TokenURL := TokenURL } = .error err →
        NewSpotifyService w env tr
          = ((none, some ⟨"couldn't get token: " ++ err.msg⟩),
             tr ++ [Event.tokenRequest
                { ClientID := Getenv env "SPOTIFY_CLIENT_ID",
                  ClientSecret := Getenv env "SPOTIFY_CLIENT_SECRET",
                  TokenURL := TokenURL }]))
      ∧ (∀ service, (NewSpotifyService w env tr).1.1 = some service →
          ∃ token,
            w.tokenExchange
                { ClientID := Getenv env "SPOTIFY_CLIENT_ID",
                  ClientSecret := Getenv env "SPOTIFY_CLIENT_SECRET",
                  TokenURL := TokenURL } = .ok token
              ∧ service = { client := { token := token } }
              ∧ (NewSpotifyService w env tr).1.2 = none) := by
  unfold NewSpotifyService
  constructor
  · intro hid hsecret err hex
    simp [hid, hsecret, hex]
  · intro service
    by_cases hid : Getenv env "SPOTIFY_CLIENT_ID" = ""
    · simp [hid]
    · by_cases hsecret : Getenv env "SPOTIFY_CLIENT_SECRET" = ""
      · simp [hsecret]
      · simp only [hid, hsecret, or_self, if_false]
        cases hex : w.tokenExchange
            { ClientID := Getenv env "SPOTIFY_CLIENT_ID",
              ClientSecret := Getenv env "SPOTIFY_CLIENT_SECRET",
              TokenURL := TokenURL } with
        | error err => simp
        | ok token =>
          intro h
          simp only [Option.some.injEq] at h
          exact ⟨token, rfl, h.symm, rfl⟩

theorem NewSpotifyService_token_failure_witness :
    NewSpotifyService sampleWorldRejecting sampleEnv []
      = ((none,
          some ⟨"couldn't get token: " ++ "oauth2: cannot fetch token: 401 Unauthorized"⟩),
         [] ++ [Event.tokenRequest
            { ClientID := Getenv sampleEnv "SPOTIFY_CLIENT_ID",
              ClientSecret := Getenv sampleEnv "SPOTIFY_CLIENT_SECRET",
              TokenURL := TokenURL }]) :=
  (NewSpotifyService_token_failure sampleWorldRejecting sampleEnv []).1
    (by decide) (by decide) { msg := "oauth2: cannot fetch token: 401 Unauthorized" } rfl


/-! ## Printing: helper lemmas -/

theorem fmtD_eq_toString (n : Int) : fmtD n = toString n := by
  cases n with
  | ofNat m => simp [fmtD]; rfl
  | negSucc m =>
    have : Int.negSucc m < 0 := Int.negSucc_lt_zero m
    simp [fmtD, this]
    rfl

theorem fmtD_natCast (n : Nat) : fmtD (n : Int) = toString n := by
  rw [fmtD_eq_toString]
  rfl

theorem fmtD_succ (i : Nat) : fmtD ((i : Int) + 1) = toString (i + 1) := by
  have : ((i : Int) + 1) = ((i + 1 : Nat) : Int) := by push_cast; rfl
  rw [this, fmtD_eq_toString]
  rfl

theorem stringsJoin_eq_intercalate (elems : List String) (sep : String) :
    stringsJoin elems sep = sep.intercalate elems := by
  have go : ∀ (rest : List String) (acc : String),
      rest.foldl (fun b s => b ++ sep ++ s) acc = String.intercalate.go acc sep rest := by
    intro rest
    induction rest with
    | nil => intro acc; rfl
    | cons a as ih => intro acc; simp only [List.foldl_cons, String.intercalate.go]; exact ih _
  match elems with
  | [] => rfl
  | [e] => rfl
  | e :: f :: rest => simp only [stringsJoin, String.intercalate]; exact go _ _

theorem joinArtists_eq (artists : List SimpleArtist) :
    joinArtists artists = ", ".intercalate (artists.map (fun a => a.Name)) := by
  have names : ∀ (l : List SimpleArtist) (acc : List String),
      l.foldl (fun names artist => names ++ [artist.Name]) acc
        = acc ++ l.map (fun a => a.Name) := by
    intro l
    induction l with
    | nil => intro acc; simp
    | cons a as ih => intro acc; simp [ih]
  unfold joinArtists
  simp only [names, List.nil_append]
  exact stringsJoin_eq_intercalate _ _

theorem printTracksLoop_acc (ts : List FullTrack) :
    ∀ (i : Nat) (tr : Trace), printTracksLoop i ts tr = tr ++ printTracksLoop i ts [] := by
  induction ts with
  | nil => intro i tr; simp [printTracksLoop]
  | cons t rest ih =>
    intro i tr
    simp only [printTracksLoop]
    rw [ih]
    conv_rhs => rw [ih]
    simp [List.append_assoc]

theorem printTracksLoop_cons (i : Nat) (t : FullTrack) (rest : List FullTrack) :
    printTracksLoop i (t :: rest) []
      = printTracksLoop i [t] [] ++ printTracksLoop (i + 1) rest [] := by
  simp only [printTracksLoop]
  rw [printTracksLoop_acc]

theorem printTracksLoop_getElem (ts : List FullTrack) :
    ∀ (i k r : Nat) (h : k < ts.length), r < 6 →
      (printTracksLoop i ts [])[6 * k + r]? = (printTracksLoop (i + k) [ts[k]] [])[r]? := by
  induction ts with
  | nil => intro i k r h; simp at h
  | cons t rest ih =>
    intro i k r h hr
    rw [printTracksLoop_cons]
    cases k with
    | zero =>
      rw [List.getElem?_append_left (by simp [printTracksLoop]; omega)]
      simp
    | succ k =>
      rw [List.getElem?_append_right (by simp [printTracksLoop]; omega)]
      have hlen : (printTracksLoop i [t] []).length = 6 := by simp [printTracksLoop]
      have hidx : 6 * (k + 1) + r - (printTracksLoop i [t] []).length = 6 * k + r := by
        rw [hlen]; omega
      rw [hidx, ih (i + 1) k r (by simpa using h) hr]
      have hi : i + 1 + k = i + (k + 1) := by omega
      simp [hi]

theorem printTracksLoop_length (ts : List FullTrack) :
    ∀ (i : Nat), (printTracksLoop i ts []).length = 6 * ts.length := by
  induction ts with
  | nil => intro i; simp [printTracksLoop]
  | cons t rest ih =>
    intro i
    rw [printTracksLoop_cons, List.length_append, ih]
    simp [printTracksLoop]
    omega


theorem printArtistsLoop_acc (as : List FullArtist) :
    ∀ (i : Nat) (tr : Trace), printArtistsLoop i as tr = tr ++ printArtistsLoop i as [] := by
  induction as with
  | nil => intro i tr; simp [printArtistsLoop]
  | cons a rest ih =>
    intro i tr
    simp only [printArtistsLoop]
    rw [ih]
    conv_rhs => rw [ih]
    simp [List.append_assoc]

theorem printArtistsLoop_cons (i : Nat) (a : FullArtist) (rest : List FullArtist) :
    printArtistsLoop i (a :: rest) []
      = printArtistsLoop i [a] [] ++ printArtistsLoop (i + 1) rest [] := by
  simp only [printArtistsLoop]
  rw [printArtistsLoop_acc]

theorem printArtistsLoop_getElem (as : List FullArtist) :
    ∀ (i k r : Nat) (h : k < as.length), r < 5 →
      (printArtistsLoop i as [])[5 * k + r]? = (printArtistsLoop (i + k) [as[k]] [])[r]? := by
  induction as with
  | nil => intro i k r h; simp at h
  | cons a rest ih =>
    intro i k r h hr
    rw [printArtistsLoop_cons]
    cases k with
    | zero =>
      rw [List.getElem?_append_left (by simp [printArtistsLoop]; omega)]
      simp
    | succ k =>
      rw [List.getElem?_append_right (by simp [printArtistsLoop]; omega)]
      have hlen : (printArtistsLoop i [a] []).length = 5 := by simp [printArtistsLoop]
      have hidx : 5 * (k + 1) + r - (printArtistsLoop i [a] []).length = 5 * k + r := by
        rw [hlen]; omega
      rw [hidx, ih (i + 1) k r (by simpa using h) hr]
      have hi : i + 1 + k = i + (k + 1) := by omega
      simp [hi]

theorem printArtistsLoop_length (as : List FullArtist) :
    ∀ (i : Nat), (printArtistsLoop i as []).length = 5 * as.length := by
  induction as with
  | nil => intro i; simp [printArtistsLoop]
  | cons a rest ih =>
    intro i
    rw [printArtistsLoop_cons, List.length_append, ih]
    simp [printArtistsLoop]
    omega

theorem PrintTracks_acc (tracks : Slice FullTrack) (tr : Trace) :
    PrintTracks tracks tr = tr ++ PrintTracks tracks [] := by
  unfold PrintTracks
  rw [printTracksLoop_acc]
  conv_rhs => rw [printTracksLoop_acc]
  simp [List.append_assoc]

theorem PrintArtists_acc (artists : Slice FullArtist) (tr : Trace) :
    PrintArtists artists tr = tr ++ PrintArtists artists [] := by
  unfold PrintArtists
  rw [printArtistsLoop_acc]
  conv_rhs => rw [printArtistsLoop_acc]
  simp [List.append_assoc]

theorem PrintTracks_getElem (tracks : Slice FullTrack) (k r : Nat)
    (h : k < tracks.elems.length) (hr : r < 6) :
    (PrintTracks tracks [])[2 + 6 * k + r]? = (printTracksLoop k [tracks.elems[k]] [])[r]? := by
  unfold PrintTracks
  rw [printTracksLoop_acc]
  rw [List.getElem?_append_right (by simp; omega)]
  have hidx : 2 + 6 * k + r
      - ([] ++ [Event.stdout "\nНайденные треки:\n"]
          ++ [Event.stdout "========================================\n"]).length
      = 6 * k + r := by
    simp
    omega
  rw [hidx, printTracksLoop_getElem tracks.elems 0 k r h hr]
  simp

theorem PrintArtists_getElem (artists : Slice FullArtist) (k r : Nat)
    (h : k < artists.elems.length) (hr : r < 5) :
    (PrintArtists artists [])[2 + 5 * k + r]?
      = (printArtistsLoop k [artists.elems[k]] [])[r]? := by
  unfold PrintArtists
  rw [printArtistsLoop_acc]
  rw [List.getElem?_append_right (by simp; omega)]
  have hidx : 2 + 5 * k + r
      - ([] ++ [Event.stdout "\nНайденные артисты:\n"]
          ++ [Event.stdout "========================================\n"]).length
      = 5 * k + r := by
    simp
    omega
  rw [hidx, printArtistsLoop_getElem artists.elems 0 k r h hr]
  simp

/-! ## Binary64 arithmetic: helper lemmas -/

theorem log2Fuel_spec : ∀ (fuel n : Nat), n ≤ fuel → n ≠ 0 →
    2 ^ log2Fuel fuel n ≤ n ∧ n < 2 ^ (log2Fuel fuel n + 1) := by
  intro fuel
  induction fuel with
  | zero => intro n h h0; omega
  | succ fuel ih =>
    intro n h h0
    unfold log2Fuel
    by_cases h2 : 2 ≤ n
    · simp only [h2, if_true]
      have hih := ih (n / 2) (by omega) (by omega)
      rw [pow_succ, pow_succ]
      constructor <;> omega
    · simp only [h2, if_false]
      constructor <;> simp <;> omega

theorem floorLog2_le (n : Nat) (h0 : n ≠ 0) : 2 ^ floorLog2 n ≤ n :=
  (log2Fuel_spec n n (le_refl n) h0).1

theorem lt_floorLog2 (n : Nat) (h0 : n ≠ 0) : n < 2 ^ (floorLog2 n + 1) :=
  (log2Fuel_spec n n (le_refl n) h0).2

theorem two_pow_toNat_div (s : Int) :
    ((2 : ℚ) ^ s.toNat) / (2 : ℚ) ^ (-s).toNat = (2 : ℚ) ^ s := by
  rcases le_total 0 s with h | h
  · have h1 : (-s).toNat = 0 := by omega
    have h2 : ((s.toNat : Nat) : Int) = s := Int.toNat_of_nonneg h
    rw [h1, pow_zero, div_one, ← zpow_natCast, h2]
  · have h1 : s.toNat = 0 := by omega
    have h2 : (((-s).toNat : Nat) : Int) = -s := Int.toNat_of_nonneg (by omega)
    rw [h1, pow_zero, one_div, ← zpow_natCast, h2, zpow_neg, inv_inv]

theorem float64Exponent_le (n den : Nat) (hn : 0 < n) (hd : 0 < den) :
    (2 : ℚ) ^ float64Exponent n den ≤ (n : ℚ) / (den : ℚ) := by
  have hdq : (0 : ℚ) < (den : ℚ) := by exact_mod_cast hd
  unfold float64Exponent
  simp only []
  split
  · -- the quotient is below `2 ^ e0`
    have ha : ((2 : ℚ) ^ floorLog2 n) ≤ (n : ℚ) := by
      exact_mod_cast floorLog2_le n (by omega)
    have hb : (den : ℚ) ≤ (2 : ℚ) ^ (floorLog2 den + 1) := by
      exact_mod_cast (lt_floorLog2 den (by omega)).le
    have hrw : (2 : ℚ) ^ ((floorLog2 n : Int) - (floorLog2 den : Int) - 1)
        = (2 : ℚ) ^ floorLog2 n / (2 : ℚ) ^ (floorLog2 den + 1) := by
      rw [show ((floorLog2 n : Int) - (floorLog2 den : Int) - 1)
          = (floorLog2 n : Int) - ((floorLog2 den + 1 : Nat) : Int) by push_cast; ring]
      rw [zpow_sub₀ (by norm_num), zpow_natCast, zpow_natCast]
    rw [hrw]
    exact div_le_div₀ (by positivity) ha hdq hb
  · rename_i hnot
    have hle := Nat.le_of_not_lt hnot
    have hq : (den : ℚ) * (2 : ℚ) ^ ((floorLog2 n : Int) - (floorLog2 den : Int)).toNat
        ≤ (n : ℚ) * (2 : ℚ) ^ (-((floorLog2 n : Int) - (floorLog2 den : Int))).toNat := by
      exact_mod_cast hle
    rw [← two_pow_toNat_div, div_le_div_iff₀ (by positivity) hdq]
    linarith

theorem roundHalfEven_ge (N D L : Nat) (hD : 0 < D) (h : L * D ≤ N) :
    L ≤ roundHalfEven N D := by
  have hq : L ≤ N / D := (Nat.le_div_iff_mul_le hD).2 h
  unfold roundHalfEven
  simp only []
  split_ifs <;> omega

theorem roundHalfEven_le (N D H : Nat) (hD : 0 < D) (h : N ≤ H * D) :
    roundHalfEven N D ≤ H := by
  have hq : N / D ≤ H := Nat.div_le_of_le_mul (by rw [Nat.mul_comm]; exact h)
  have hmod := Nat.div_add_mod N D
  have hr : N % D ≠ 0 → N / D < H := by
    intro hr
    by_contra hcon
    have hHq : H = N / D := by omega
    rw [hHq] at h
    have : D * (N / D) + N % D ≤ N / D * D := by rw [hmod]; exact h
    rw [Nat.mul_comm] at this
    omega
  unfold roundHalfEven
  simp only []
  split_ifs with h1 h2 h3
  · exact hq
  · exact hr (by omega)
  · exact hq
  · exact hr (by omega)

theorem toRat_mk_neg (m : Int) (t : Nat) :
    (Float64.mk m (-(t : Int))).toRat = (m : ℚ) / (2 : ℚ) ^ t := by
  unfold Float64.toRat Float64.num Float64.den
  simp

theorem roundFloat64_grid (num : Int) (den : Nat) (hnum : 0 ≤ num) (hd : 0 < den)
    (k l h : Nat) (hk : k ≤ 53)
    (hlt : (num : ℚ) / (den : ℚ) < (2 : ℚ) ^ (53 - k))
    (hl : (l : ℚ) / (2 : ℚ) ^ k ≤ (num : ℚ) / (den : ℚ))
    (hh : (num : ℚ) / (den : ℚ) ≤ (h : ℚ) / (2 : ℚ) ^ k) :
    (l : ℚ) / (2 : ℚ) ^ k ≤ (roundFloat64 num den).toRat
      ∧ (roundFloat64 num den).toRat ≤ (h : ℚ) / (2 : ℚ) ^ k := by
  have hdq : (0 : ℚ) < (den : ℚ) := by exact_mod_cast hd
  by_cases h0 : num = 0
  · subst h0
    have hz : (roundFloat64 0 den).toRat = 0 := by
      simp [roundFloat64, Float64.toRat, Float64.num]
    rw [hz]
    simp only [Int.cast_zero, zero_div] at hl hh
    exact ⟨hl, hh⟩
  · obtain ⟨n, rfl⟩ := Int.eq_ofNat_of_zero_le hnum
    have hn : 0 < n := by
      rcases Nat.eq_zero_or_pos n with h | h
      · exact absurd (by simp [h]) h0
      · exact h
    simp only [Int.cast_natCast] at hlt hl hh
    have he := float64Exponent_le n den hn hd
    have he2 : float64Exponent n den < ((53 - k : Nat) : Int) := by
      have : (2 : ℚ) ^ float64Exponent n den < (2 : ℚ) ^ ((53 - k : Nat) : Int) := by
        rw [zpow_natCast]
        exact lt_of_le_of_lt he hlt
      exact (zpow_lt_zpow_iff_right₀ (by norm_num)).1 this
    obtain ⟨t, ht⟩ := Int.eq_ofNat_of_zero_le
      (show 0 ≤ 52 - float64Exponent n den - (k : Int) by omega)
    have hs : 52 - float64Exponent n den = ((t + k : Nat) : Int) := by push_cast; omega
    have e1 : (((t + k : Nat) : Int)).toNat = t + k := by omega
    have e2 : (-((t + k : Nat) : Int)).toNat = 0 := by omega
    have hneg : ¬ ((n : Int) < 0) := by omega
    have hround : roundFloat64 (n : Int) den
        = ⟨(roundHalfEven (n * 2 ^ (t + k)) den : Nat), -((t + k : Nat) : Int)⟩ := by
      unfold roundFloat64
      simp only [h0, if_false, Int.natAbs_ofNat, hs, e1, e2, pow_zero, Nat.mul_one, hneg]
    rw [hround, toRat_mk_neg]
    have h2k : (0 : ℚ) < (2 : ℚ) ^ k := by positivity
    have h2t : (0 : ℚ) < (2 : ℚ) ^ t := by positivity
    have h2tk : (0 : ℚ) < (2 : ℚ) ^ (t + k) := by positivity
    have hlN : l * den ≤ n * 2 ^ k := by
      have := (div_le_div_iff₀ h2k hdq).1 hl
      exact_mod_cast this
    have hhN : n * 2 ^ k ≤ h * den := by
      have := (div_le_div_iff₀ hdq h2k).1 hh
      exact_mod_cast this
    have hge := roundHalfEven_ge (n * 2 ^ (t + k)) den (l * 2 ^ t) hd (by
      calc l * 2 ^ t * den = (l * den) * 2 ^ t := by ring
        _ ≤ (n * 2 ^ k) * 2 ^ t := Nat.mul_le_mul_right _ hlN
        _ = n * 2 ^ (t + k) := by rw [pow_add]; ring)
    have hle := roundHalfEven_le (n * 2 ^ (t + k)) den (h * 2 ^ t) hd (by
      calc n * 2 ^ (t + k) = (n * 2 ^ k) * 2 ^ t := by rw [pow_add]; ring
        _ ≤ (h * den) * 2 ^ t := Nat.mul_le_mul_right _ hhN
        _ = h * 2 ^ t * den := by ring)
    generalize roundHalfEven (n * 2 ^ (t + k)) den = m at hge hle ⊢
    have hgeq : (l : ℚ) * (2 : ℚ) ^ t ≤ (m : ℚ) := by exact_mod_cast hge
    have hleq : (m : ℚ) ≤ (h : ℚ) * (2 : ℚ) ^ t := by exact_mod_cast hle
    have hpow : (2 : ℚ) ^ (t + k) = (2 : ℚ) ^ t * (2 : ℚ) ^ k := pow_add _ _ _
    constructor
    · rw [div_le_div_iff₀ h2k h2tk, hpow]
      simp only [Int.cast_natCast]
      calc (l : ℚ) * ((2 : ℚ) ^ t * (2 : ℚ) ^ k) = ((l : ℚ) * (2 : ℚ) ^ t) * (2 : ℚ) ^ k := by ring
        _ ≤ (m : ℚ) * (2 : ℚ) ^ k := mul_le_mul_of_nonneg_right hgeq h2k.le
    · rw [div_le_div_iff₀ h2tk h2k, hpow]
      simp only [Int.cast_natCast]
      calc (m : ℚ) * (2 : ℚ) ^ k ≤ ((h : ℚ) * (2 : ℚ) ^ t) * (2 : ℚ) ^ k :=
            mul_le_mul_of_nonneg_right hleq h2k.le
        _ = (h : ℚ) * ((2 : ℚ) ^ t * (2 : ℚ) ^ k) := by ring

theorem Float64.den_pos (x : Float64) : 0 < x.den := by
  unfold Float64.den
  positivity

theorem Float64.num_nonneg_of_toRat (x : Float64) (h : 0 ≤ x.toRat) : 0 ≤ x.num := by
  have hd : (0 : ℚ) < (x.den : ℚ) := by exact_mod_cast x.den_pos
  unfold Float64.toRat at h
  have : (0 : ℚ) ≤ (x.num : ℚ) := by
    by_contra hneg
    have := div_neg_of_neg_of_pos (lt_of_not_le hneg) hd
    linarith
  exact_mod_cast this

theorem Float64.ofInt_exact (n : Nat) (h : n < 2 ^ 53) : (Float64.ofInt (n : Int)).toRat = n := by
  have hg := roundFloat64_grid (n : Int) 1 (by omega) (by omega) 0 n n (by omega)
    (by simp only [Int.cast_natCast, Nat.cast_one, div_one]; exact_mod_cast h)
    (by simp) (by simp)
  unfold Float64.ofInt
  simp only [pow_zero, div_one] at hg
  exact le_antisymm hg.2 hg.1

theorem Float64.toInt_eq (x : Float64) (a : Nat) (h1 : (a : ℚ) ≤ x.toRat)
    (h2 : x.toRat < (a : ℚ) + 1) : x.toInt = a := by
  have hd : (0 : ℚ) < (x.den : ℚ) := by exact_mod_cast x.den_pos
  have hnum := x.num_nonneg_of_toRat (le_trans (by positivity) h1)
  have hfloor : ⌊(x.num : ℚ) / (x.den : ℚ)⌋ = x.num / (x.den : Int) :=
    Rat.floor_intCast_div_natCast _ _
  unfold Float64.toInt
  rw [Int.tdiv_eq_ediv hnum (Int.ofNat_nonneg _), ← hfloor, Int.floor_eq_iff]
  unfold Float64.toRat at h1 h2
  exact ⟨by exact_mod_cast h1, by exact_mod_cast h2⟩

theorem trunc_add_div (a b U k : Nat) (hk : k ≤ 52) (ha : a + 1 ≤ 2 ^ (53 - k))
    (hb : b < 2 ^ 53) (hU : U < 2 ^ 53) (hU0 : 0 < U)
    (hbU : b * 2 ^ k ≤ U * (2 ^ k - 1)) :
    ((Float64.ofInt (a : Int)).add
      ((Float64.ofInt (b : Int)).div (Float64.ofInt (U : Int)))).toInt = a := by
  have h2k : (0 : ℚ) < (2 : ℚ) ^ k := by positivity
  have h2k1 : 1 ≤ 2 ^ k := Nat.one_le_two_pow
  have hA := Float64.ofInt_exact a (by
    calc a < a + 1 := by omega
      _ ≤ 2 ^ (53 - k) := ha
      _ ≤ 2 ^ 53 := Nat.pow_le_pow_right (by omega) (by omega))
  have hB := Float64.ofInt_exact b hb
  have hUe := Float64.ofInt_exact U hU
  have hUq : (0 : ℚ) < (U : ℚ) := by exact_mod_cast hU0
  set A := Float64.ofInt (a : Int) with hAdef
  set B := Float64.ofInt (b : Int) with hBdef
  set V := Float64.ofInt (U : Int) with hVdef
  have hVnum : 0 < V.num := by
    have hd : (0 : ℚ) < (V.den : ℚ) := by exact_mod_cast V.den_pos
    have : (0 : ℚ) < (V.num : ℚ) := by
      have hpos : (0 : ℚ) < V.toRat := by rw [hUe]; exact hUq
      unfold Float64.toRat at hpos
      by_contra hneg
      have := div_nonpos_of_nonpos_of_nonneg (le_of_not_lt hneg) hd.le
      linarith
    exact_mod_cast this
  have hBnum : 0 ≤ B.num := B.num_nonneg_of_toRat (by rw [hB]; positivity)
  have hAnum : 0 ≤ A.num := A.num_nonneg_of_toRat (by rw [hA]; positivity)
  -- the quotient
  have hratio : (((Int.sign V.num * B.num * (V.den : Int) : Int)) : ℚ)
      / ((B.den * V.num.natAbs : Nat) : ℚ) = (b : ℚ) / (U : ℚ) := by
    rw [← hB, ← hUe]
    unfold Float64.toRat
    have hBd : (0 : ℚ) < (B.den : ℚ) := by exact_mod_cast B.den_pos
    have hVd : (0 : ℚ) < (V.den : ℚ) := by exact_mod_cast V.den_pos
    have hVn : (0 : ℚ) < (V.num : ℚ) := by exact_mod_cast hVnum
    have habs : ((V.num.natAbs : Nat) : ℚ) = (V.num : ℚ) := by
      rw [Nat.cast_natAbs, abs_of_pos hVnum]
    rw [Int.sign_eq_one_of_pos hVnum]
    push_cast
    rw [habs]
    field_simp
  have hbUq : (b : ℚ) / (U : ℚ) ≤ ((2 ^ k - 1 : Nat) : ℚ) / (2 : ℚ) ^ k := by
    rw [div_le_div_iff₀ hUq h2k]
    have : ((b * 2 ^ k : Nat) : ℚ) ≤ ((U * (2 ^ k - 1) : Nat) : ℚ) := by exact_mod_cast hbU
    push_cast at this ⊢
    linarith
  have hone : ((2 ^ k - 1 : Nat) : ℚ) = (2 : ℚ) ^ k - 1 := by
    rw [Nat.cast_sub h2k1]; push_cast; ring
  have hQ := roundFloat64_grid (Int.sign V.num * B.num * (V.den : Int)) (B.den * V.num.natAbs)
    (by
      rw [Int.sign_eq_one_of_pos hVnum]
      positivity)
    (Nat.mul_pos B.den_pos (Int.natAbs_pos.2 (by omega))) k 0 (2 ^ k - 1) (by omega)
    (by
      rw [hratio]
      calc (b : ℚ) / (U : ℚ) ≤ ((2 ^ k - 1 : Nat) : ℚ) / (2 : ℚ) ^ k := hbUq
        _ < 1 := by rw [div_lt_one h2k, hone]; linarith
        _ ≤ (2 : ℚ) ^ (53 - k) := one_le_pow₀ (by norm_num))
    (by rw [hratio]; simp only [Nat.cast_zero, zero_div]; positivity)
    (by rw [hratio]; exact hbUq)
  have hQdef : B.div V
      = roundFloat64 (Int.sign V.num * B.num * (V.den : Int)) (B.den * V.num.natAbs) := rfl
  rw [← hQdef] at hQ
  set Q := B.div V with hQname
  simp only [Nat.cast_zero, zero_div] at hQ
  have hQnum : 0 ≤ Q.num := Q.num_nonneg_of_toRat hQ.1
  -- the sum
  have hsum : (((A.num * (Q.den : Int) + Q.num * (A.den : Int) : Int)) : ℚ)
      / ((A.den * Q.den : Nat) : ℚ) = (a : ℚ) + Q.toRat := by
    rw [← hA]
    unfold Float64.toRat
    have hAd : (0 : ℚ) < (A.den : ℚ) := by exact_mod_cast A.den_pos
    have hQd : (0 : ℚ) < (Q.den : ℚ) := by exact_mod_cast Q.den_pos
    push_cast
    field_simp
  have hS := roundFloat64_grid (A.num * (Q.den : Int) + Q.num * (A.den : Int)) (A.den * Q.den)
    (by positivity) (Nat.mul_pos A.den_pos Q.den_pos) k (a * 2 ^ k) ((a + 1) * 2 ^ k - 1)
    (by omega)
    (by
      rw [hsum]
      calc (a : ℚ) + Q.toRat ≤ (a : ℚ) + ((2 ^ k - 1 : Nat) : ℚ) / (2 : ℚ) ^ k := by linarith [hQ.2]
        _ < (a : ℚ) + 1 := by
          have : ((2 ^ k - 1 : Nat) : ℚ) / (2 : ℚ) ^ k < 1 := by
            rw [div_lt_one h2k, hone]; linarith
          linarith
        _ ≤ (2 : ℚ) ^ (53 - k) := by exact_mod_cast ha)
    (by
      rw [hsum]
      have : ((a * 2 ^ k : Nat) : ℚ) / (2 : ℚ) ^ k = (a : ℚ) := by
        push_cast; field_simp
      rw [this]
      linarith [hQ.1])
    (by
      rw [hsum]
      have hcast : (((a + 1) * 2 ^ k - 1 : Nat) : ℚ) = ((a : ℚ) + 1) * (2 : ℚ) ^ k - 1 := by
        have : 1 ≤ (a + 1) * 2 ^ k := Nat.mul_pos (by omega) (by omega)
        rw [Nat.cast_sub this]; push_cast; ring
      rw [hcast, le_div_iff₀ h2k]
      have h3 := hQ.2
      rw [hone, le_div_iff₀ h2k] at h3
      linarith)
  have hSdef : A.add Q
      = roundFloat64 (A.num * (Q.den : Int) + Q.num * (A.den : Int)) (A.den * Q.den) := rfl
  rw [← hSdef] at hS
  apply Float64.toInt_eq
  · have : ((a * 2 ^ k : Nat) : ℚ) / (2 : ℚ) ^ k = (a : ℚ) := by
      push_cast; field_simp
    rw [← this]
    exact hS.1
  · have hcast : (((a + 1) * 2 ^ k - 1 : Nat) : ℚ) = ((a : ℚ) + 1) * (2 : ℚ) ^ k - 1 := by
      have : 1 ≤ (a + 1) * 2 ^ k := Nat.mul_pos (by omega) (by omega)
      rw [Nat.cast_sub this]; push_cast; ring
    have h4 := hS.2
    rw [hcast, le_div_iff₀ h2k] at h4
    have hlt : (A.add Q).toRat * (2 : ℚ) ^ k < ((a : ℚ) + 1) * (2 : ℚ) ^ k := by linarith
    exact lt_of_mul_lt_mul_right hlt h2k.le

/-! ## Durations: helper lemmas -/

theorem wrapInt64_of_range (x : Int) (h0 : 0 ≤ x) (h1 : x < 9223372036854775808) :
    wrapInt64 x = x := by
  unfold wrapInt64
  norm_num
  omega

theorem TimeDuration_of_range (t : FullTrack) (ms : Nat) (hms : t.Duration = (ms : Int))
    (hle : ms ≤ 9223372036854) : t.TimeDuration = (ms : Int) * 1000000 := by
  unfold FullTrack.TimeDuration Millisecond
  rw [hms]
  apply wrapInt64_of_range <;> omega

theorem Minutes_of_ms (ms : Nat) (hle : ms ≤ 9223372036854) :
    (Minutes ((ms : Int) * 1000000)).toInt = ((ms / 60000 : Nat) : Int) := by
  have hmin : Int.tdiv ((ms : Int) * 1000000) Minute = ((ms / 60000 : Nat) : Int) := by
    unfold Minute
    rw [Int.tdiv_eq_ediv (by omega) (by omega)]
    omega
  have hnsec : Int.tmod ((ms : Int) * 1000000) Minute
      = ((ms % 60000 * 1000000 : Nat) : Int) := by
    unfold Minute
    rw [Int.tmod_eq_emod (by omega) (by omega)]
    omega
  have hU : ((60 : Int) * 1000000000) = ((60000000000 : Nat) : Int) := by norm_num
  unfold Minutes
  simp only [hmin, hnsec, hU]
  apply trunc_add_div (ms / 60000) (ms % 60000 * 1000000) 60000000000 16
  · omega
  · norm_num
    omega
  · norm_num
    omega
  · norm_num
  · norm_num
  · norm_num
    omega

theorem Seconds_of_ms (ms : Nat) (hle : ms ≤ 9223372036854) :
    Int.tmod (Seconds ((ms : Int) * 1000000)).toInt 60 = ((ms / 1000 % 60 : Nat) : Int) := by
  have hsec : Int.tdiv ((ms : Int) * 1000000) Second = ((ms / 1000 : Nat) : Int) := by
    unfold Second
    rw [Int.tdiv_eq_ediv (by omega) (by omega)]
    omega
  have hnsec : Int.tmod ((ms : Int) * 1000000) Second
      = ((ms % 1000 * 1000000 : Nat) : Int) := by
    unfold Second
    rw [Int.tmod_eq_emod (by omega) (by omega)]
    omega
  have hU : (1000000000 : Int) = ((1000000000 : Nat) : Int) := by norm_num
  have htrunc : (Seconds ((ms : Int) * 1000000)).toInt = ((ms / 1000 : Nat) : Int) := by
    unfold Seconds
    simp only [hsec, hnsec]
    rw [hU]
    apply trunc_add_div (ms / 1000) (ms % 1000 * 1000000) 1000000000 10
    · omega
    · norm_num
      omega
    · norm_num
      omega
    · norm_num
    · norm_num
    · norm_num
      omega
  rw [htrunc, Int.tmod_eq_emod (by omega) (by omega)]
  omega

theorem fmt02D_two_digits :
    ∀ n : Nat, n < 60 →
      fmt02D (n : Int) = String.mk [Nat.digitChar (n / 10), Nat.digitChar (n % 10)] := by
  decide


set_option maxRecDepth 100000 in
theorem Minutes_rounds_up_example :
    Int.tdiv (wrapInt64 (99897519159137222 * Millisecond)) Minute = 139999999
      ∧ (Minutes (wrapInt64 (99897519159137222 * Millisecond))).toInt = 140000000 := by
  decide

set_option maxRecDepth 100000 in
theorem Seconds_rounds_up_example :
    Int.tmod (Int.tdiv (wrapInt64 (211759175222141943 * Millisecond)) Second) 60 = 29
      ∧ Int.tmod (Seconds (wrapInt64 (211759175222141943 * Millisecond))).toInt 60 = 30 := by
  decide

theorem PrintTracks_duration_getElem (tracks : Slice FullTrack) (i : Nat)
    (h : i < tracks.elems.length) (ms : Nat)
    (hms : tracks.elems[i].Duration = (ms : Int)) (hle : ms ≤ 9223372036854) :
    (PrintTracks tracks [])[2 + 6 * i + 2]?
      = some (Event.stdout ("   Длительность: " ++ toString (ms / 60000) ++ ":"
          ++ String.mk [Nat.digitChar (ms / 1000 % 60 / 10),
              Nat.digitChar (ms / 1000 % 60 % 10)] ++ "\n")) := by
  rw [PrintTracks_getElem tracks i 2 h (by omega)]
  simp only [printTracksLoop]
  rw [TimeDuration_of_range _ ms hms hle, Minutes_of_ms ms hle, Seconds_of_ms ms hle,
    fmt02D_two_digits _ (Nat.mod_lt _ (by decide)), fmtD_natCast]
  rfl

/-! ## Printing: theorems -/

set_option maxRecDepth 100000 in
/-- C5 (as stated, refuted): in the two-track list Song A, Huge the second
track lasts 10000000000000 ms, so its block should show "166666666:40"; the
product with `time.Millisecond` wraps in `int64` to -8446744073709551616
nanoseconds (-140779067.9 minutes, -8446744073.7 seconds) and the block shows
"-140779067:-53".  So the four claimed lines do not hold for every track
list. -/
theorem hugeTrack_block_duration_wraps :
    (PrintTracks (some [songA, hugeTrack]) [])[2 + 6 * 1 + 2]?
        = some (Event.stdout "   Длительность: -140779067:-53\n")
      ∧ ¬ (∀ (tracks : Slice FullTrack) (i : Nat) (h : i < tracks.elems.length) (ms : Nat),
            tracks.elems[i].Duration = (ms : Int) →
            (PrintTracks tracks [])[2 + 6 * i]?
                = some (Event.stdout (toString (i + 1) ++ ". " ++ tracks.elems[i].Name ++ " - "
                    ++ ", ".intercalate (tracks.elems[i].Artists.map (fun a => a.Name)) ++ "\n"))
              ∧ (PrintTracks tracks [])[2 + 6 * i + 1]?
                = some (Event.stdout ("   Альбом: " ++ tracks.elems[i].Album.Name ++ "\n"))
              ∧ (PrintTracks tracks [])[2 + 6 * i + 2]?
                = some (Event.stdout ("   Длительность: " ++ toString (ms / 60000) ++ ":"
                    ++ String.mk [Nat.digitChar (ms / 1000 % 60 / 10),
                        Nat.digitChar (ms / 1000 % 60 % 10)] ++ "\n"))
              ∧ (PrintTracks tracks [])[2 + 6 * i + 4]?
                = some (Event.stdout ("   Популярность: "
                    ++ toString tracks.elems[i].Popularity ++ "/100\n"))) := by
  refine ⟨by decide, ?_⟩
  intro hall
  have h := (hall (some [songA, hugeTrack]) 1 (by decide) 10000000000000 (by decide)).2.2.1
  revert h
  decide

/-- C5 (amended): `PrintTracks` appends to the trace the header (two lines) and
then, for the track at 0-based position `i`, six lines at positions `2 + 6 * i`
onwards and nothing else: "<i+1>. <name> - <artist names joined by comma and
space>", "   Альбом: <album>", the duration line, "   ID: <id>",
"   Популярность: <popularity>/100" and the separator.  For a track whose raw
duration is `ms` milliseconds with `ms ≤ 9223372036854` the duration line is
"   Длительность: M:SS" with `M = ms / 60000` in plain decimal and
`SS = (ms / 1000) % 60` as two decimal digits. -/
theorem PrintTracks_blocks (tracks : Slice FullTrack) (tr : Trace) :
    PrintTracks tracks tr = tr ++ PrintTracks tracks []
      ∧ (PrintTracks tracks []).length = 2 + 6 * tracks.elems.length
      ∧ (PrintTracks tracks [])[0]? = some (Event.stdout "\nНайденные треки:\n")
      ∧ (PrintTracks tracks [])[1]?
          = some (Event.stdout "========================================\n")
      ∧ ∀ (i : Nat) (h : i < tracks.elems.length),
          (PrintTracks tracks [])[2 + 6 * i]?
              = some (Event.stdout (toString (i + 1) ++ ". " ++ tracks.elems[i].Name ++ " - "
                  ++ ", ".intercalate (tracks.elems[i].Artists.map (fun a => a.Name)) ++ "\n"))
            ∧ (PrintTracks tracks [])[2 + 6 * i + 1]?
              = some (Event.stdout ("   Альбом: " ++ tracks.elems[i].Album.Name ++ "\n"))
            ∧ (∀ ms : Nat, tracks.elems[i].Duration = (ms : Int) → ms ≤ 9223372036854 →
                (PrintTracks tracks [])[2 + 6 * i + 2]?
                  = some (Event.stdout ("   Длительность: " ++ toString (ms / 60000) ++ ":"
                      ++ String.mk [Nat.digitChar (ms / 1000 % 60 / 10),
                          Nat.digitChar (ms / 1000 % 60 % 10)] ++ "\n")))
            ∧ (PrintTracks tracks [])[2 + 6 * i + 3]?
              = some (Event.stdout ("   ID: " ++ tracks.elems[i].ID ++ "\n"))
            ∧ (PrintTracks tracks [])[2 + 6 * i + 4]?
              = some (Event.stdout ("   Популярность: "
                  ++ toString tracks.elems[i].Popularity ++ "/100\n"))
            ∧ (PrintTracks tracks [])[2 + 6 * i + 5]?
              = some (Event.stdout "----------------------------------------\n") := by
  refine ⟨PrintTracks_acc tracks tr, ?_, ?_, ?_, ?_⟩
  · unfold PrintTracks
    rw [printTracksLoop_acc, List.length_append, printTracksLoop_length]
    simp
  · unfold PrintTracks
    rw [printTracksLoop_acc]
    simp
  · unfold PrintTracks
    rw [printTracksLoop_acc]
    simp
  · intro i h
    have h0 := PrintTracks_getElem tracks i 0 h (by omega)
    have h1 := PrintTracks_getElem tracks i 1 h (by omega)
    have h3 := PrintTracks_getElem tracks i 3 h (by omega)
    have h4 := PrintTracks_getElem tracks i 4 h (by omega)
    have h5 := PrintTracks_getElem tracks i 5 h (by omega)
    rw [Nat.add_zero] at h0
    rw [h0, h1, h3, h4, h5]
    refine ⟨?_, ?_, ?_, ?_, ?_, ?_⟩
    · simp only [printTracksLoop, fmtD_succ, joinArtists_eq]
      simp
    · simp [printTracksLoop]
    · intro ms hms hle
      exact PrintTracks_duration_getElem tracks i h ms hms hle
    · simp [printTracksLoop]
    · simp [printTracksLoop, fmtD_eq_toString]
    · simp [printTracksLoop]

theorem PrintTracks_blocks_witness :
    (PrintTracks (some [songA]) [])[2]? = some (Event.stdout "1. Song A - Artist A\n")
      ∧ (PrintTracks (some [songA]) [])[3]? = some (Event.stdout "   Альбом: Album A\n")
      ∧ (PrintTracks (some [songA]) [])[4]? = some (Event.stdout "   Длительность: 3:05\n")
      ∧ (PrintTracks (some [songA]) [])[6]? = some (Event.stdout "   Популярность: 42/100\n") := by
  have h := (PrintTracks_blocks (some [songA]) []).2.2.2.2 0 (by decide)
  exact ⟨h.1.trans (by decide), h.2.1.trans (by decide),
    (h.2.2.1 185000 (by decide) (by decide)).trans (by decide),
    h.2.2.2.2.1.trans (by decide)⟩

set_option maxRecDepth 100000 in
/-- C4 (as stated, refuted): a track of 9223372036855 ms has a non-negative raw
duration, yet its duration line is "-153722867:-16", not "153722867:16": the
product with `time.Millisecond` wraps around in `int64` to -9223372036854551616
nanoseconds, that is -153722867.28 minutes and -9223372036.85 seconds, which
`int` cuts to -153722867 and -9223372036, the latter leaving -16 modulo 60. -/
theorem longTrack_duration_wraps :
    0 ≤ longTrack.Duration
      ∧ (PrintTracks (some [longTrack]) [])[4]?
          = some (Event.stdout "   Длительность: -153722867:-16\n")
      ∧ ¬ (∀ (tracks : Slice FullTrack) (i : Nat) (h : i < tracks.elems.length) (ms : Nat),
            tracks.elems[i].Duration = (ms : Int) →
            (PrintTracks tracks [])[2 + 6 * i + 2]?
              = some (Event.stdout ("   Длительность: " ++ toString (ms / 60000) ++ ":"
                  ++ String.mk [Nat.digitChar (ms / 1000 % 60 / 10),
                      Nat.digitChar (ms / 1000 % 60 % 10)] ++ "\n"))) := by
  refine ⟨by decide, by decide, ?_⟩
  intro hall
  have h := hall (some [longTrack]) 0 (by decide) 9223372036855 (by decide)
  revert h
  decide

/-- C4 (amended): for a track at position `i` whose raw duration is `ms`
milliseconds with `ms ≤ 9223372036854` (so that `ms * 10 ^ 6` nanoseconds fit
in `int64`), the duration line is "M:SS" with `M = ms / 60000` in plain decimal
and `SS = (ms / 1000) % 60` as exactly two decimal digits, below 60. -/
theorem PrintTracks_duration_line (tracks : Slice FullTrack) (i : Nat)
    (h : i < tracks.elems.length) (ms : Nat)
    (hms : tracks.elems[i].Duration = (ms : Int)) (hle : ms ≤ 9223372036854) :
    (PrintTracks tracks [])[2 + 6 * i + 2]?
        = some (Event.stdout ("   Длительность: " ++ toString (ms / 60000) ++ ":"
            ++ String.mk [Nat.digitChar (ms / 1000 % 60 / 10),
                Nat.digitChar (ms / 1000 % 60 % 10)] ++ "\n"))
      ∧ ms / 1000 % 60 < 60 :=
  ⟨PrintTracks_duration_getElem tracks i h ms hms hle, Nat.mod_lt _ (by decide)⟩

theorem PrintTracks_duration_line_witness :
    (PrintTracks (some [songA, songB]) [])[2 + 6 * 1 + 2]?
        = some (Event.stdout "   Длительность: 2:05\n")
      ∧ (PrintTracks (some [songA, songB]) [])[2 + 6 * 0 + 2]?
        = some (Event.stdout "   Длительность: 3:05\n") :=
  ⟨(PrintTracks_duration_line (some [songA, songB]) 1 (by decide) 125000
      (by decide) (by decide)).1.trans (by decide),
   (PrintTracks_duration_line (some [songA, songB]) 0 (by decide) 185000
      (by decide) (by decide)).1.trans (by decide)⟩

/-- C8: in the output of `PrintArtists`, the second line of the block of the
artist at position `i` is "   Жанры: " followed by the genres joined in order
with comma and space; genres pop, rock give "pop, rock" and no genre gives the
label followed by nothing. `PrintArtists` is total: it prints the two header
lines and five lines per artist. -/
theorem PrintArtists_genre_line (artists : Slice FullArtist) (i : Nat)
    (h : i < artists.elems.length) :
    (PrintArtists artists [])[2 + 5 * i + 1]?
        = some (Event.stdout ("   Жанры: " ++ ", ".intercalate artists.elems[i].Genres ++ "\n"))
      ∧ (artists.elems[i].Genres = ["pop", "rock"] →
          (PrintArtists artists [])[2 + 5 * i + 1]? = some (Event.stdout "   Жанры: pop, rock\n"))
      ∧ (artists.elems[i].Genres = [] →
          (PrintArtists artists [])[2 + 5 * i + 1]? = some (Event.stdout "   Жанры: \n"))
      ∧ (PrintArtists artists []).length = 2 + 5 * artists.elems.length := by
  have hline : (PrintArtists artists [])[2 + 5 * i + 1]?
      = some (Event.stdout ("   Жанры: " ++ ", ".intercalate artists.elems[i].Genres ++ "\n")) := by
    rw [PrintArtists_getElem artists i 1 h (by omega)]
    simp only [printArtistsLoop, stringsJoin_eq_intercalate]
    simp
  refine ⟨hline, ?_, ?_, ?_⟩
  · intro hg
    rw [hline, hg]
    decide
  · intro hg
    rw [hline, hg]
    decide
  · unfold PrintArtists
    rw [printArtistsLoop_acc, List.length_append, printArtistsLoop_length]
    simp

theorem PrintArtists_genre_line_witness :
    (PrintArtists (some [artistX, artistY]) [])[2 + 5 * 0 + 1]?
        = some (Event.stdout "   Жанры: pop, rock\n")
      ∧ (PrintArtists (some [artistX, artistY]) [])[2 + 5 * 1 + 1]?
        = some (Event.stdout "   Жанры: \n") :=
  ⟨(PrintArtists_genre_line (some [artistX, artistY]) 0 (by decide)).2.1 rfl,
   (PrintArtists_genre_line (some [artistX, artistY]) 1 (by decide)).2.2.1 rfl⟩


/-! ## Entry point: helper lemmas and theorem -/

theorem SearchTracks_eq (w : World) (s : SpotifyService) (query : String) (limit : Int)
    (tr : Trace) :
    s.SearchTracks w query limit tr
      = ((s.SearchTracks w query limit []).1,
         tr ++ [Event.searchRequest query SearchType.SearchTypeTrack limit]) := by
  unfold SpotifyService.SearchTracks
  cases w.search s.client query SearchType.SearchTypeTrack limit with
  | error err => rfl
  | ok result => cases hp : result.Tracks <;> simp [hp]

theorem SearchArtists_eq (w : World) (s : SpotifyService) (query : String) (limit : Int)
    (tr : Trace) :
    s.SearchArtists w query limit tr
      = ((s.SearchArtists w query limit []).1,
         tr ++ [Event.searchRequest query SearchType.SearchTypeArtist limit]) := by
  unfold SpotifyService.SearchArtists
  cases w.search s.client query SearchType.SearchTypeArtist limit with
  | error err => rfl
  | ok result => cases hp : result.Artists <;> simp [hp]

theorem NewSpotifyService_trace (w : World) (env : String → Option String) (tr tr0 : Trace)
    (service : SpotifyService)
    (h : NewSpotifyService w env tr = ((some service, none), tr0)) :
    tr0 = tr ++ [Event.tokenRequest
      { ClientID := Getenv env "SPOTIFY_CLIENT_ID",
        ClientSecret := Getenv env "SPOTIFY_CLIENT_SECRET",
        TokenURL := TokenURL }] := by
  unfold NewSpotifyService at h
  by_cases hc : Getenv env "SPOTIFY_CLIENT_ID" = "" ∨ Getenv env "SPOTIFY_CLIENT_SECRET" = ""
  · simp [hc] at h
  · simp only [hc, if_false] at h
    cases hex : w.tokenExchange
        { ClientID := Getenv env "SPOTIFY_CLIENT_ID",
          ClientSecret := Getenv env "SPOTIFY_CLIENT_SECRET",
          TokenURL := TokenURL } with
    | error err => simp [hex] at h
    | ok token =>
      simp only [hex, Prod.mk.injEq] at h
      exact h.2.symm

theorem printArtistsLoop_filter (as : List FullArtist) :
    ∀ (i : Nat), (printArtistsLoop i as []).filter Event.isStdout = printArtistsLoop i as [] := by
  induction as with
  | nil => intro i; simp [printArtistsLoop]
  | cons a rest ih =>
    intro i
    rw [printArtistsLoop_cons, List.filter_append, ih]
    simp [printArtistsLoop, Event.isStdout]

theorem PrintArtists_filter (artists : Slice FullArtist) :
    (PrintArtists artists []).filter Event.isStdout = PrintArtists artists [] := by
  unfold PrintArtists
  rw [printArtistsLoop_acc, List.filter_append, printArtistsLoop_filter]
  simp [Event.isStdout]

theorem main_eq (w : World) (env : String → Option String) (service : SpotifyService)
    (tr0 : Trace) (hload : w.dotenvLoad "dev.env" w.env = .ok env)
    (hsvc : NewSpotifyService w env [] = ((some service, none), tr0)) :
    main w =
      ((match (service.SearchArtists w "cupsize" 3 []).1 with
        | (_, some err) =>
          (match (service.SearchTracks w "надо было ставить линукс" 1 []).1 with
            | (_, some err) =>
              tr0 ++ [Event.searchRequest "надо было ставить линукс" SearchType.SearchTypeTrack 1]
                ++ [Event.logged ("Ошибка поиска треков: " ++ err.msg)]
            | (tracks, none) =>
              PrintTracks tracks
                (tr0 ++ [Event.searchRequest "надо было ставить линукс"
                  SearchType.SearchTypeTrack 1]))
            ++ [Event.searchRequest "cupsize" SearchType.SearchTypeArtist 3]
            ++ [Event.logged ("Ошибка поиска артистов: " ++ err.msg)]
        | (artists, none) =>
          PrintArtists artists
            ((match (service.SearchTracks w "надо было ставить линукс" 1 []).1 with
              | (_, some err) =>
                tr0 ++ [Event.searchRequest "надо было ставить линукс"
                    SearchType.SearchTypeTrack 1]
                  ++ [Event.logged ("Ошибка поиска треков: " ++ err.msg)]
              | (tracks, none) =>
                PrintTracks tracks
                  (tr0 ++ [Event.searchRequest "надо было ставить линукс"
                    SearchType.SearchTypeTrack 1]))
              ++ [Event.searchRequest "cupsize" SearchType.SearchTypeArtist 3])),
       Exit.returned) := by
  unfold main
  simp only [hload, hsvc]
  rw [SearchTracks_eq]
  simp only []
  rw [SearchArtists_eq]

/-- C9: in every run of `main` that gets past the dotenv load and the service
construction, the artist search is made and its outcome handled after the track
search, whatever the track search returned, and the process reaches the end of
`main`.  The four combinations: a failed track search is logged and an
artist result printed (standard output then holds the artist report and
nothing else); both fail and both are logged; both succeed and both reports are
printed, tracks first; the track report is printed and a failed artist search
logged. -/
theorem main_artist_search_always_handled (w : World) (env : String → Option String)
    (service : SpotifyService) (tr0 : Trace)
    (hload : w.dotenvLoad "dev.env" w.env = .ok env)
    (hsvc : NewSpotifyService w env [] = ((some service, none), tr0)) :
    (∀ (terr : GoError) (artists : Slice FullArtist),
        (service.SearchTracks w "надо было ставить линукс" 1 []).1.2 = some terr →
        (service.SearchArtists w "cupsize" 3 []).1 = (artists, none) →
        main w
            = (tr0
                ++ [Event.searchRequest "надо было ставить линукс"
                      SearchType.SearchTypeTrack 1,
                    Event.logged ("Ошибка поиска треков: " ++ terr.msg),
                    Event.searchRequest "cupsize" SearchType.SearchTypeArtist 3]
                ++ PrintArtists artists [],
               Exit.returned)
          ∧ (main w).1.filter Event.isStdout = PrintArtists artists [])
      ∧ (∀ (terr aerr : GoError),
          (service.SearchTracks w "надо было ставить линукс" 1 []).1.2 = some terr →
          (service.SearchArtists w "cupsize" 3 []).1.2 = some aerr →
          main w
            = (tr0
                ++ [Event.searchRequest "надо было ставить линукс"
                      SearchType.SearchTypeTrack 1,
                    Event.logged ("Ошибка поиска треков: " ++ terr.msg),
                    Event.searchRequest "cupsize" SearchType.SearchTypeArtist 3,
                    Event.logged ("Ошибка поиска артистов: " ++ aerr.msg)],
               Exit.returned))
      ∧ (∀ (tracks : Slice FullTrack) (artists : Slice FullArtist),
          (service.SearchTracks w "надо было ставить линукс" 1 []).1 = (tracks, none) →
          (service.SearchArtists w "cupsize" 3 []).1 = (artists, none) →
          main w
            = (tr0
                ++ [Event.searchRequest "надо было ставить линукс"
                      SearchType.SearchTypeTrack 1]
                ++ PrintTracks tracks []
                ++ [Event.searchRequest "cupsize" SearchType.SearchTypeArtist 3]
                ++ PrintArtists artists [],
               Exit.returned))
      ∧ (∀ (tracks : Slice FullTrack) (aerr : GoError),
          (service.SearchTracks w "надо было ставить линукс" 1 []).1 = (tracks, none) →
          (service.SearchArtists w "cupsize" 3 []).1.2 = some aerr →
          main w
            = (tr0
                ++ [Event.searchRequest "надо было ставить линукс"
                      SearchType.SearchTypeTrack 1]
                ++ PrintTracks tracks []
                ++ [Event.searchRequest "cupsize" SearchType.SearchTypeArtist 3,
                    Event.logged ("Ошибка поиска артистов: " ++ aerr.msg)],
               Exit.returned)) := by
  have htr0 := NewSpotifyService_trace w env [] tr0 service hsvc
  have hmain := main_eq w env service tr0 hload hsvc
  have tfail : ∀ terr,
      (service.SearchTracks w "надо было ставить линукс" 1 []).1.2 = some terr →
      (service.SearchTracks w "надо было ставить линукс" 1 []).1
        = ((service.SearchTracks w "надо было ставить линукс" 1 []).1.1, some terr) := by
    intro terr h
    rw [← h]
  have afail : ∀ aerr,
      (service.SearchArtists w "cupsize" 3 []).1.2 = some aerr →
      (service.SearchArtists w "cupsize" 3 []).1
        = ((service.SearchArtists w "cupsize" 3 []).1.1, some aerr) := by
    intro aerr h
    rw [← h]
  refine ⟨?_, ?_, ?_, ?_⟩
  · intro terr artists htracks hartists
    have hm : main w
        = (tr0
            ++ [Event.searchRequest "надо было ставить линукс" SearchType.SearchTypeTrack 1,
                Event.logged ("Ошибка поиска треков: " ++ terr.msg),
                Event.searchRequest "cupsize" SearchType.SearchTypeArtist 3]
            ++ PrintArtists artists [],
           Exit.returned) := by
      rw [hmain, hartists, tfail terr htracks]
      simp only []
      rw [PrintArtists_acc]
      simp [List.append_assoc]
    refine ⟨hm, ?_⟩
    rw [hm, htr0]
    simp [List.filter_append, PrintArtists_filter, Event.isStdout]
  · intro terr aerr htracks hartists
    rw [hmain, afail aerr hartists, tfail terr htracks]
    simp [List.append_assoc]
  · intro tracks artists htracks hartists
    rw [hmain, hartists, htracks]
    simp only []
    rw [PrintArtists_acc, PrintTracks_acc]
  · intro tracks aerr htracks hartists
    rw [hmain, afail aerr hartists, htracks]
    simp only []
    rw [PrintTracks_acc]
    simp [List.append_assoc]

theorem main_artist_search_always_handled_witness :
    (main sampleWorld
        = ([Event.tokenRequest { ClientID := "id", ClientSecret := "secret", TokenURL := TokenURL }]
            ++ [Event.searchRequest "надо было ставить линукс" SearchType.SearchTypeTrack 1,
                Event.logged ("Ошибка поиска треков: "
                  ++ (GoError.mk "search failed: context deadline exceeded").msg),
                Event.searchRequest "cupsize" SearchType.SearchTypeArtist 3]
            ++ PrintArtists (some [artistX, artistY]) [],
           Exit.returned)
      ∧ (main sampleWorld).1.filter Event.isStdout
          = PrintArtists (some [artistX, artistY]) [])
    ∧ main sampleWorldBoth
        = ([Event.tokenRequest { ClientID := "id", ClientSecret := "secret", TokenURL := TokenURL }]
            ++ [Event.searchRequest "надо было ставить линукс" SearchType.SearchTypeTrack 1]
            ++ PrintTracks (some [songA]) []
            ++ [Event.searchRequest "cupsize" SearchType.SearchTypeArtist 3]
            ++ PrintArtists (some [artistX]) [],
           Exit.returned) :=
  ⟨(main_artist_search_always_handled sampleWorld sampleEnv sampleService
      [Event.tokenRequest { ClientID := "id", ClientSecret := "secret", TokenURL := TokenURL }]
      rfl (by decide)).1
      { msg := "search failed: context deadline exceeded" } (some [artistX, artistY])
      (by decide) (by decide),
   (main_artist_search_always_handled sampleWorldBoth sampleEnv sampleService
      [Event.tokenRequest { ClientID := "id", ClientSecret := "secret", TokenURL := TokenURL }]
      rfl (by decide)).2.2.1
      (some [songA]) (some [artistX]) (by decide) (by decide)⟩

end SpotifySearch
